import Mathlib

/-!
Verification development for the quill/soliloquy text-adventure engine.

The Python sources are shallowly embedded: Python dicts that keep insertion
order become association lists (`List (String × _)`, first-match lookup),
Python sets of strings become duplicate-free `List String` manipulated only
through membership-guarded insertion, and optional record fields (present or
absent dict keys) become `Option`.  Fallible code paths return an explicit
result constructor instead of raising.
-/

set_option maxRecDepth 4000

/-- First-match association-list lookup: the semantics of `d[k]` / `d.get(k)`
on a Python dict (keys are unique in Python, so first match is the match). -/
def lookupA {α : Type} (l : List (String × α)) (k : String) : Option α :=
  (l.find? (fun p => p.1 == k)).map (fun p => p.2)

/-- `Set.add` on a Python set of strings, modelled on a duplicate-free list:
inserting an element that is already present is a no-op. -/
def insertNew (l : List String) (x : String) : List String :=
  if l.contains x then l else l ++ [x]

/-!  String primitives of the embedding.  The Python string methods the
sources use (`lower`, `strip`, `split`, substring tests, `int(...)`) are
defined here character by character, structurally over `String.toList`. -/

/-- Python `str.lower()` (character-wise ASCII case folding). -/
def pyLower (s : String) : String :=
  String.mk (s.toList.map Char.toLower)

/-- Whether `cs` begins with `nd`. -/
def charsStartWith : List Char → List Char → Bool
  | _, [] => true
  | [], _ :: _ => false
  | a :: as, b :: bs => a == b && charsStartWith as bs

/-- Whether `nd` occurs contiguously inside `hay` (Python
`needle in haystack` on strings). -/
def charsContain (hay nd : List Char) : Bool :=
  match hay with
  | [] => nd.isEmpty
  | c :: rest => charsStartWith (c :: rest) nd || charsContain rest nd

/-- Split at the first occurrence of `nd`: the part before it and the part
after it, or nothing when `nd` does not occur. -/
def splitFirst (hay nd : List Char) : Option (List Char × List Char) :=
  match hay with
  | [] => if nd.isEmpty then some ([], []) else none
  | c :: rest =>
      if charsStartWith (c :: rest) nd then some ([], (c :: rest).drop nd.length)
      else
        match splitFirst rest nd with
        | some pr => some (c :: pr.1, pr.2)
        | none => none

/-- Python `str.strip()`: drop whitespace from both ends. -/
def pyStrip (s : String) : String :=
  String.mk (((s.toList.dropWhile Char.isWhitespace).reverse.dropWhile
    Char.isWhitespace).reverse)

/-- Worker for `pySplit`: walk the characters, collecting the current word
in reverse. -/
def wordsAux : List Char → List Char → List String
  | [], cur => if cur.isEmpty then [] else [String.mk cur.reverse]
  | c :: rest, cur =>
      if c.isWhitespace then
        if cur.isEmpty then wordsAux rest []
        else String.mk cur.reverse :: wordsAux rest []
      else wordsAux rest (c :: cur)

/-- The numeric value of a run of decimal digits. -/
def digitsToNat (cs : List Char) : Nat :=
  cs.foldl (fun acc c => acc * 10 + (c.toNat - 48)) 0

/-- JSON scalar values as they appear in parsed command dictionaries.
The rule-based tier only ever emits string values; the generative tiers
hand back whatever the JSON library produced for each key. -/
inductive JVal where
  | str (s : String)
  | num (n : Int)
  | boolean (b : Bool)
  | null
deriving DecidableEq, Repr

/-- A command is a Python dict from keys to JSON values (insertion ordered). -/
abbrev Cmd := List (String × JVal)

/-- `command.get(k)` -/
def cmdGet (c : Cmd) (k : String) : Option JVal :=
  lookupA c k

/-- Python truthiness of `command.get("action")`: `None`, `""`, `0`, `False`
and `null` are falsy. -/
def jvalFalsy : Option JVal → Bool
  | none => true
  | some (JVal.str s) => s == ""
  | some (JVal.num n) => n == 0
  | some (JVal.boolean b) => !b
  | some JVal.null => true

/-- A condition dict `{has_flags: [...], lacks_flags: [...]}`; a missing key
is the empty list (matching `condition.get("has_flags", [])`).  An absent or
empty condition dict is modelled as `none` at the use sites. -/
structure Condition where
  has_flags : List String := []
  lacks_flags : List String := []
deriving DecidableEq, Repr

/-- `Scene._check_condition` / `Character._check_condition` (identical bodies):
an empty/absent condition is vacuously true; otherwise the required flags must
all be present and no forbidden flag may be present.  The emptiness guards of
the source are kept as written. -/
def check_condition : Option Condition → List String → Bool
  | none, _ => true
  | some c, flags =>
    if !c.has_flags.isEmpty && !c.has_flags.all (fun f => flags.contains f) then
      false
    else if !c.lacks_flags.isEmpty && c.lacks_flags.any (fun f => flags.contains f) then
      false
    else
      true

/-- `QuillEngine._check_event_condition`: the engine re-implements the same
predicate with key-presence guards instead of emptiness guards. -/
def check_event_condition (c : Condition) (flags : List String) : Bool :=
  if !(c.has_flags.all (fun f => flags.contains f)) then false
  else if c.lacks_flags.any (fun f => flags.contains f) then false
  else true

/-- The `has_flags` list of a possibly absent condition. -/
def condHas : Option Condition → List String
  | none => []
  | some c => c.has_flags

/-- The `lacks_flags` list of a possibly absent condition. -/
def condLacks : Option Condition → List String
  | none => []
  | some c => c.lacks_flags

/-- `Player` state (quests and stats are untouched by every code path the
claims exercise and are omitted).  `inventory` is an insertion-ordered list,
`flags` a set of strings. -/
structure Player where
  inventory : List String := []
  flags : List String := []
deriving DecidableEq, Repr

/-- `Player.add_item`: append only if absent. -/
def Player.add_item (p : Player) (item_id : String) : Player :=
  if p.inventory.contains item_id then p
  else { p with inventory := p.inventory ++ [item_id] }

/-- `Player.remove_item`: remove the first occurrence, reporting success. -/
def Player.remove_item (p : Player) (item_id : String) : Player × Bool :=
  if p.inventory.contains item_id then
    ({ p with inventory := p.inventory.erase item_id }, true)
  else
    (p, false)

/-- `Player.has_item` -/
def Player.has_item (p : Player) (item_id : String) : Bool :=
  p.inventory.contains item_id

/-- `Player.add_flag`: set insertion. -/
def Player.add_flag (p : Player) (flag : String) : Player :=
  { p with flags := insertNew p.flags flag }

/-- An exit dict `{target, hidden, description}`; `target` may be absent. -/
structure ExitData where
  target : Option String := none
  hidden : Bool := false
  description : String := ""
deriving DecidableEq, Repr

/-- A scene exit entry: legacy plain-string target or a full dict. -/
inductive ExitEntry where
  | legacy (target : String)
  | full (d : ExitData)
deriving DecidableEq, Repr

/-- An object dict `{description, hidden, reveals, flags_set}` with the
defaults the accessors apply (`""`, `False`, `[]`, `[]`). -/
structure ObjectData where
  description : String := ""
  hidden : Bool := false
  reveals : List String := []
  flags_set : List String := []
deriving DecidableEq, Repr

/-- A scene object entry: legacy plain description string or a full dict. -/
inductive ObjEntry where
  | legacy (description : String)
  | full (d : ObjectData)
deriving DecidableEq, Repr

/-- A scene state `{condition, description}`; `description` may be absent, in
which case `get_description` falls back to the scene default. -/
structure StateData where
  condition : Option Condition := none
  description : Option String := none
deriving DecidableEq, Repr

/-- A `locked_exits` / `locked_items` entry `{condition, message}`. -/
structure LockData where
  condition : Option Condition := none
  message : Option String := none
deriving DecidableEq, Repr

/-- A scene event `{trigger, condition, message, flags_set, items_add,
change_scene}` with accessor defaults folded in where the source always
defaults, and `Option` kept where the source tests key presence. -/
structure Event where
  trigger : String := ""
  condition : Option Condition := none
  message : Option String := none
  flags_set : List String := []
  items_add : List String := []
  change_scene : Option String := none
deriving DecidableEq, Repr

/-- A scene `items` entry value: either not a dict, or a dict whose `name`
key may be present (the only field `Scene.find_item` consults). -/
inductive SceneItemVal where
  | plain
  | record (name : Option String)
deriving DecidableEq, Repr

/-- A scene `characters` entry value: legacy bool, or a dict with an optional
presence condition. -/
inductive CharPresence where
  | present (b : Bool)
  | record (condition : Option Condition)
deriving DecidableEq, Repr

/-- `Scene` as built by `Scene.__init__`, plus the session-local
`revealed_objects` set. -/
structure Scene where
  id : String
  name : String := ""
  description : String := ""
  exits : List (String × ExitEntry) := []
  objects : List (String × ObjEntry) := []
  items : List (String × SceneItemVal) := []
  characters : List (String × CharPresence) := []
  states : List (String × StateData) := []
  locked_exits : List (String × LockData) := []
  locked_items : List (String × LockData) := []
  events : List (String × Event) := []
  revealed_objects : List String := []
deriving DecidableEq, Repr

/-- `Scene.get_description`: first declared state whose condition holds wins;
a matching state without its own description, and the no-match case, fall
back to the scene default. -/
def Scene.get_description (s : Scene) (player_flags : List String) : String :=
  match s.states.find? (fun st => check_condition st.2.condition player_flags) with
  | some st => st.2.description.getD s.description
  | none => s.description

/-- `Scene.get_visible_exits`: hidden dict-entries are filtered unless
revealed; legacy string entries are wrapped as
`{target: s, description: "Exit to <name>"}` and are never hidden.
`player_flags` is accepted (as in the source) but never consulted. -/
def Scene.get_visible_exits (s : Scene) (player_flags : List String) :
    List (String × ExitData) :=
  s.exits.filterMap (fun e =>
    match e.2 with
    | ExitEntry.legacy t =>
        some (e.1, { target := some t, description := "Exit to " ++ e.1 })
    | ExitEntry.full d =>
        if d.hidden && !(s.revealed_objects.contains e.1) then none
        else some (e.1, d))

/-- `Scene.get_visible_objects`: hidden dict-entries are filtered unless
revealed; values collapse to their description strings.  `player_flags` is
accepted but never consulted. -/
def Scene.get_visible_objects (s : Scene) (player_flags : List String) :
    List (String × String) :=
  s.objects.filterMap (fun o =>
    match o.2 with
    | ObjEntry.legacy d => some (o.1, d)
    | ObjEntry.full d =>
        if d.hidden && !(s.revealed_objects.contains o.1) then none
        else some (o.1, d.description))

/-- `Scene.has_object` -/
def Scene.has_object (s : Scene) (object_name : String) : Bool :=
  (s.objects.map Prod.fst).contains object_name

/-- `Scene.get_object_description` -/
def Scene.get_object_description (s : Scene) (object_name : String) : String :=
  match lookupA s.objects object_name with
  | none => ""
  | some (ObjEntry.legacy d) => d
  | some (ObjEntry.full d) => d.description

/-- `Scene.reveal_hidden_objects`: examining a dict-typed object unions its
`reveals` list into `revealed_objects` and applies its `flags_set` to the
player; anything else is a no-op. -/
def Scene.reveal_hidden_objects (s : Scene) (object_name : String) (p : Player) :
    Scene × Player :=
  match lookupA s.objects object_name with
  | none => (s, p)
  | some (ObjEntry.legacy _) => (s, p)
  | some (ObjEntry.full d) =>
      ({ s with revealed_objects := d.reveals.foldl insertNew s.revealed_objects },
       d.flags_set.foldl Player.add_flag p)

/-- `Scene.find_item`: exact id match first, then the first dict-typed item
whose `name` (default `""`) matches case-insensitively. -/
def Scene.find_item (s : Scene) (item_name : String) : Option String :=
  if (s.items.map Prod.fst).contains item_name then some item_name
  else
    (s.items.find? (fun it =>
      match it.2 with
      | SceneItemVal.plain => false
      | SceneItemVal.record nm =>
          pyLower (nm.getD "") == pyLower item_name)).map (fun it => it.1)

/-- `Scene.remove_item`: delete the key from the item map if present. -/
def Scene.remove_item (s : Scene) (item_id : String) : Scene :=
  { s with items := s.items.filter (fun it => !(it.1 == item_id)) }

/-- `Scene.is_exit_locked`: an exit is locked when it has a `locked_exits`
entry whose condition evaluates true against the player flags. -/
def Scene.is_exit_locked (s : Scene) (exit_name : String) (player_flags : List String) :
    Bool :=
  match lookupA s.locked_exits exit_name with
  | none => false
  | some lock => check_condition lock.condition player_flags

/-- `Scene.get_locked_exit_message` -/
def Scene.get_locked_exit_message (s : Scene) (exit_name : String) : String :=
  match lookupA s.locked_exits exit_name with
  | none => "You can\x27t go that way."
  | some lock => lock.message.getD "That way is locked."

/-- `Scene.is_item_locked` -/
def Scene.is_item_locked (s : Scene) (item_id : String) (player_flags : List String) :
    Bool :=
  match lookupA s.locked_items item_id with
  | none => false
  | some lock => check_condition lock.condition player_flags

/-- `Scene.get_locked_item_message` -/
def Scene.get_locked_item_message (s : Scene) (item_id : String) : String :=
  match lookupA s.locked_items item_id with
  | none => "You can\x27t take that."
  | some lock => lock.message.getD "You can\x27t take that right now."

/-- `Scene.check_event`: first event whose declared trigger equals the given
trigger case-insensitively and whose condition holds. -/
def Scene.check_event (s : Scene) (trigger : String) (player_flags : List String) :
    Option Event :=
  (s.events.find? (fun ev =>
    pyLower ev.2.trigger == pyLower trigger
      && check_condition ev.2.condition player_flags)).map (fun ev => ev.2)

/-- `Scene.has_character`: legacy bool entries are taken verbatim; dict
entries check their presence condition when one is declared and default to
present otherwise. -/
def Scene.has_character (s : Scene) (character_id : String) (player_flags : List String) :
    Bool :=
  match lookupA s.characters character_id with
  | none => false
  | some (CharPresence.present b) => b
  | some (CharPresence.record cond) =>
      match cond with
      | some c => check_condition (some c) player_flags
      | none => true

/-!  ## Command parser embedding

Both `CommandParser` classes carry the same verb-synonym table and
preposition list; they are shared here.  The three-tier `parse` chain of
`quill/command_parser.py` is embedded with the generative backend abstracted
to its observable outcome (an exception or a raw reply string) and the JSON
library abstracted to a function from the sliced text to an optional command
dict: a slice that starts at a `{` and ends at a `}` can only parse to a JSON
object, so a successful parse is always a key/value list. -/

/-- The verb-synonym table, in its declaration (= dict iteration) order. -/
def verbs : List (String × List String) :=
  [("look", ["look", "examine", "inspect", "check", "view", "see", "observe"]),
   ("go", ["go", "move", "walk", "run", "travel", "head", "proceed", "enter", "exit", "leave"]),
   ("take", ["take", "grab", "pick", "collect", "get", "acquire", "steal"]),
   ("use", ["use", "utilize", "employ", "apply", "operate"]),
   ("talk", ["talk", "speak", "chat", "converse", "ask", "tell", "say"]),
   ("inventory", ["inventory", "items", "possessions", "belongings"]),
   ("drop", ["drop", "discard", "put", "place", "set"])]

/-- The synonym list of one canonical verb. -/
def verbSyns (k : String) : List String :=
  (lookupA verbs k).getD []

/-- The preposition list used to split multi-word commands. -/
def prepositions : List String :=
  ["on", "in", "with", "to", "at", "for", "from", "by", "about"]

/-- Python `str.split()` with no argument: split on whitespace runs,
dropping empty pieces. -/
def pySplit (s : String) : List String :=
  wordsAux s.toList []

/-- `CommandParser._extract_command_parts` (identical in both parsers):
first word is the action; the first preposition, if any, splits target from
indirect target; otherwise everything after the verb is the target. -/
def extract_command_parts (words : List String) : String × String × String :=
  let action := words.headD ""
  let i := words.findIdx (fun w => prepositions.contains w)
  if i == words.length then
    (action,
     if words.length > 1 then String.intercalate " " (words.drop 1) else "",
     "")
  else
    let target :=
      if i > 1 then String.intercalate " " ((words.drop 1).take (i - 1)) else ""
    let indirect :=
      if i < words.length - 1 then String.intercalate " " (words.drop (i + 1)) else ""
    (action, target, indirect)

/-- Rewrite the `action` value of a command dict in place. -/
def setCmdAction (c : Cmd) (a : String) : Cmd :=
  c.map (fun p => if p.1 == "action" then (p.1, JVal.str a) else p)

namespace Quill

/-- `CommandParser._rule_based_parse` of `quill/command_parser.py`. -/
def rule_based_parse (user_input : String) (current_scene : Scene) (player : Player) :
    Cmd :=
  let words := pySplit (pyLower user_input)
  if words.isEmpty then [("action", JVal.str "invalid")]
  else if pyLower user_input == "look around"
      || pyLower user_input == "look around for clues" then
    [("action", JVal.str "look")]
  else
    let single : Option Cmd :=
      if words.length == 1 then
        let word := words.headD ""
        if (verbSyns "inventory").contains word then
          some [("action", JVal.str "inventory")]
        else if (verbSyns "look").contains word then
          some [("action", JVal.str "look")]
        else if ((current_scene.get_visible_exits player.flags).map Prod.fst).contains word then
          some [("action", JVal.str "go"), ("target", JVal.str word)]
        else none
      else none
    match single with
    | some c => c
    | none =>
      let parts := extract_command_parts words
      let action := parts.1
      let target := parts.2.1
      let indirect := parts.2.2
      if (verbSyns "inventory").contains action then [("action", JVal.str "inventory")]
      else if (verbSyns "look").contains action && target == "" then
        [("action", JVal.str "look")]
      else
        match verbs.find? (fun p => p.2.contains action) with
        | none =>
            [("action", JVal.str "invalid"), ("original_input", JVal.str user_input)]
        | some canonical =>
            let command :=
              [("action", JVal.str canonical.1)]
                ++ (if !(target == "") then [("target", JVal.str target)] else [])
                ++ (if !(indirect == "") then [("indirect_target", JVal.str indirect)] else [])
            if canonical.1 == "look" && !(target == "") then
              setCmdAction command "examine"
            else command

end Quill

/-- The character index of the first `{` in a string (meaningful only when
one is present). -/
def firstBraceIdx (s : String) : Nat :=
  s.toList.findIdx (fun c => c == '{')

/-- The character index of the last `}` in a string (meaningful only when
one is present). -/
def lastBraceIdx (s : String) : Nat :=
  s.toList.length - 1 - s.toList.reverse.findIdx (fun c => c == '}')

/-- `response[response.find(chr(123)) : response.rfind(chr(125)) + 1]`:
the slice between the first opening and last closing brace (empty when they
are in the wrong order, exactly as a Python slice). -/
def braceSlice (s : String) : String :=
  String.mk ((s.toList.drop (firstBraceIdx s)).take (lastBraceIdx s + 1 - firstBraceIdx s))

/-- The JSON extraction step of `_neural_parse`: when both braces occur,
slice between them and hand the slice to the JSON library. -/
def extract_json (jsonLoads : String → Option Cmd) (response : String) : Option Cmd :=
  if response.toList.contains '{' && response.toList.contains '}' then
    jsonLoads (braceSlice response)
  else none

/-- Whether the greedy regex over the whole reply (an opening brace with some
closing brace after it, dot matching newlines) finds a match; when it does,
its capture is `braceSlice`. -/
def hasOrderedBraces (s : String) : Bool :=
  s.toList.contains '{' && s.toList.contains '}'
    && decide (firstBraceIdx s < lastBraceIdx s)

/-- The JSON extraction step of `_api_parse`. -/
def api_extract_json (jsonLoads : String → Option Cmd) (response : String) : Option Cmd :=
  if hasOrderedBraces response then jsonLoads (braceSlice response)
  else none

/-- The observable outcome of the configured primary backend: no backend at
all (`basic`, or a model that failed to load), a local model that raised or
replied, or the remote API that raised, replied with no choices, or replied
with text. -/
inductive Backend where
  | basic
  | localReady (outcome : Except Unit String)
  | apiReady (outcome : Except Unit (Option String))

namespace Quill

/-- The tail of `_neural_parse` after the model reply is in hand: strip the
reply, extract and parse the brace slice, accept only a dict carrying an
`action` key, otherwise fall back to the rule-based tier. -/
def neural_reply_to_command (jsonLoads : String → Option Cmd) (raw : String)
    (user_input : String) (current_scene : Scene) (player : Player) : Cmd :=
  let response := pyStrip raw
  match extract_json jsonLoads response with
  | some command =>
      if command.any (fun p => p.1 == "action") then command
      else rule_based_parse user_input current_scene player
  | none => rule_based_parse user_input current_scene player

/-- The tail of `_api_parse` after the API reply is in hand (same acceptance
rule; the regex search replaces the brace test). -/
def api_reply_to_command (jsonLoads : String → Option Cmd) (raw : String)
    (user_input : String) (current_scene : Scene) (player : Player) : Cmd :=
  let response := pyStrip raw
  match api_extract_json jsonLoads response with
  | some command =>
      if command.any (fun p => p.1 == "action") then command
      else rule_based_parse user_input current_scene player
  | none => rule_based_parse user_input current_scene player

/-- `CommandParser.parse`: a raising backend is caught and falls through to
the rule-based tier; a reply is processed by the corresponding extraction
tail; no backend goes straight to the rule-based tier. -/
def parse (jsonLoads : String → Option Cmd) (backend : Backend)
    (user_input : String) (current_scene : Scene) (player : Player) : Cmd :=
  match backend with
  | Backend.basic => rule_based_parse user_input current_scene player
  | Backend.localReady (Except.error _) => rule_based_parse user_input current_scene player
  | Backend.localReady (Except.ok raw) =>
      neural_reply_to_command jsonLoads raw user_input current_scene player
  | Backend.apiReady (Except.error _) => rule_based_parse user_input current_scene player
  | Backend.apiReady (Except.ok none) => rule_based_parse user_input current_scene player
  | Backend.apiReady (Except.ok (some raw)) =>
      api_reply_to_command jsonLoads raw user_input current_scene player

end Quill

/-- Substring test (`needle in haystack` on Python strings). -/
def containsSub (haystack needle : String) : Bool :=
  charsContain haystack.toList needle.toList

/-- The regex step of the soliloquy rule tier: search for `look at`,
optionally followed by ` the`, then a space and a non-empty remainder, which
is captured to the end and stripped.  The search is modelled at the first
occurrence of the literal `look at`, where the optional group is taken
greedily — the behaviour of the regex engine on every input without a
second `look at` occurrence. -/
def lookAtMatch (s : String) : Option String :=
  match splitFirst s.toList "look at".toList with
  | none => none
  | some pr =>
      let after := pr.2
      let after2 := if charsStartWith after " the ".toList then after.drop 4 else after
      match after2 with
      | ' ' :: rest => if rest.isEmpty then none else some (pyStrip (String.mk rest))
      | _ => none

namespace Soliloquy

/-- `CommandParser._rule_based_parse` of `soliloquy/command_parser.py`:
the quill rule tier plus phrase special cases (staircase phrasing, `go to`
exit recovery, "look around" synonyms, the `look at X` regex, inventory
phrasings) and an exit-substring recovery before `invalid` — but without the
final look-with-target rewrite. -/
def rule_based_parse (user_input : String) (current_scene : Scene) (player : Player) :
    Cmd :=
  let normalized := pyLower user_input
  let words := pySplit normalized
  if words.isEmpty then [("action", JVal.str "invalid")]
  else if (containsSub normalized "go up" || containsSub normalized "climb")
      && (containsSub normalized "staircase" || containsSub normalized "stairs") then
    [("action", JVal.str "go"), ("target", JVal.str "staircase")]
  else
    let exitsForGoTo : Option Cmd :=
      if containsSub normalized "go to" || containsSub normalized "head to"
          || containsSub normalized "lets go" then
        ((current_scene.get_visible_exits player.flags).find?
            (fun e => containsSub normalized (pyLower e.1))).map
          (fun e => [("action", JVal.str "go"), ("target", JVal.str e.1)])
      else none
    match exitsForGoTo with
    | some c => c
    | none =>
      if containsSub normalized "look around" || containsSub normalized "search"
          || containsSub normalized "check around"
          || containsSub normalized "look for clues" then
        [("action", JVal.str "look")]
      else
        match lookAtMatch normalized with
        | some target => [("action", JVal.str "examine"), ("target", JVal.str target)]
        | none =>
          if containsSub normalized "inventory" || containsSub normalized "my items"
              || containsSub normalized "what do i have" then
            [("action", JVal.str "inventory")]
          else
            let single : Option Cmd :=
              if words.length == 1 then
                let word := words.headD ""
                if (verbSyns "inventory").contains word then
                  some [("action", JVal.str "inventory")]
                else if (verbSyns "look").contains word then
                  some [("action", JVal.str "look")]
                else if ((current_scene.get_visible_exits player.flags).map Prod.fst).contains word then
                  some [("action", JVal.str "go"), ("target", JVal.str word)]
                else none
              else none
            match single with
            | some c => c
            | none =>
              let parts := extract_command_parts words
              let action := parts.1
              let target := parts.2.1
              let indirect := parts.2.2
              if (verbSyns "inventory").contains action then
                [("action", JVal.str "inventory")]
              else if (verbSyns "look").contains action && target == "" then
                [("action", JVal.str "look")]
              else
                match verbs.find? (fun p => p.2.contains action) with
                | none =>
                    match (current_scene.get_visible_exits player.flags).find?
                        (fun e => containsSub normalized (pyLower e.1)) with
                    | some e => [("action", JVal.str "go"), ("target", JVal.str e.1)]
                    | none =>
                        [("action", JVal.str "invalid"),
                         ("original_input", JVal.str user_input)]
                | some canonical =>
                    [("action", JVal.str canonical.1)]
                      ++ (if !(target == "") then [("target", JVal.str target)] else [])
                      ++ (if !(indirect == "") then [("indirect_target", JVal.str indirect)] else [])

end Soliloquy

/-!  ## Engine embedding

The engine's turn handlers.  Uncaught Python exceptions inside a handler are
modelled by the `exn` result constructor, which carries the state at the
moment of the raise (mutations made before the raise persist; the game loop
catches the exception at the turn boundary and keeps running).  Rendering
calls are collected into an output list. -/

/-- An item effect dict `{message, flags_set}`. -/
structure Effect where
  message : Option String := none
  flags_set : List String := []
deriving DecidableEq, Repr

/-- `Item` as built by `Item.__init__` (weight is never consulted by the
engine and is omitted); `Option` fields record key presence in the raw
YAML mapping. -/
structure Item where
  id : String
  name : Option String := none
  description : String := ""
  takeable : Option Bool := none
  examination : Option String := none
  effects : List (String × Effect) := []
deriving DecidableEq, Repr

/-- `Item.get_name` -/
def Item.get_name (it : Item) : String :=
  it.name.getD it.id

/-- Python `key in item` on the `Item` class: `Item` defines `__getitem__`
but neither `__contains__` nor `__iter__`, so the interpreter falls back to
the sequence protocol and evaluates `item[0]`; `Item.__getitem__` raises
`KeyError` for every key absent from the underlying mapping, and `0` is
never a key of a string-keyed YAML item record, so the membership test
raises instead of answering. -/
def Item.pyContains (_it : Item) (_key : String) : Except Unit Bool :=
  Except.error ()

/-- One dialogue-option action dict: `{type: set_flag, flag}` or
`{type: give_item, item}`; other types are ignored by the engine. -/
inductive DAction where
  | set_flag (flag : String)
  | give_item (item : String)
  | other (t : String)
deriving DecidableEq, Repr

/-- One dialogue option `{text, response, actions}`. -/
structure DOption where
  text : String := ""
  response : String := ""
  actions : List DAction := []
deriving DecidableEq, Repr

/-- A dialogue payload `{text, options}` with accessor defaults folded in. -/
structure Dialogue where
  text : String := ""
  options : List DOption := []
deriving DecidableEq, Repr

/-- One `dialogue_states` entry `{condition, text, options}`. -/
structure DialogueState where
  condition : Option Condition := none
  text : String := ""
  options : List DOption := []
deriving DecidableEq, Repr

/-- `Character` as built by `Character.__init__`; `name` keeps key presence
because the engine reads it both through the `name` default
(`data.get("name", char_id)`) and through a bare `get("name", "")`. -/
structure Character where
  id : String
  name : Option String := none
  description : String := ""
  dialogue : Dialogue := {}
  dialogue_states : List (String × DialogueState) := []
deriving DecidableEq, Repr

/-- `Character.get_dialogue`: first declared dialogue state whose condition
holds wins, else the default dialogue. -/
def Character.get_dialogue (c : Character) (player_flags : List String) : Dialogue :=
  match c.dialogue_states.find? (fun st => check_condition st.2.condition player_flags) with
  | some st => { text := st.2.text, options := st.2.options }
  | none => c.dialogue

/-- One rendering request sent to the presentation sink. -/
inductive Output where
  | text (s : String)
  | err (s : String)
  | sceneTitle (s : String)
  | exitsList (es : List (String × ExitData))
  | objectsList (os : List (String × String))
  | charactersList (ids : List String)
  | dialogueBox (speaker : String) (text : String) (options : List String)
  | inventoryList (names : List String)
deriving DecidableEq, Repr

/-- Engine session state: the loaded world maps, the player, and the current
scene.  In Python `current_scene` aliases an entry of `scenes`. -/
structure EngineSt where
  scenes : List (String × Scene) := []
  items : List (String × Item) := []
  characters : List (String × Character) := []
  player : Player := {}
  current : Scene
deriving DecidableEq, Repr

/-- Result of one dispatched command: normal completion, or an uncaught
exception escaping the handler (carrying the state at the raise, which the
turn-boundary handler in the game loop keeps). -/
inductive TurnResult where
  | ok (st : EngineSt) (out : List Output)
  | exn (st : EngineSt) (out : List Output)
deriving DecidableEq, Repr

/-- Write a mutated current scene back: in Python the engine mutates the
`Scene` object that both `current_scene` and the scenes map reference, so
the mutation is visible through every alias. -/
def EngineSt.putScene (st : EngineSt) (s : Scene) : EngineSt :=
  { st with
    current := s
    scenes := st.scenes.map (fun p => if p.2.id == s.id then (p.1, s) else p) }

/-- `self.items.get(i, {}).get("name", i)` -/
def itemDisplayName (st : EngineSt) (i : String) : String :=
  match lookupA st.items i with
  | some it => it.name.getD i
  | none => i

/-- `QuillEngine.get_characters_in_scene` -/
def EngineSt.charactersInScene (st : EngineSt) : List (String × Character) :=
  st.characters.filter (fun c => st.current.has_character c.1 st.player.flags)

/-- `QuillEngine.display_current_scene`: scene title and state-resolved
description, then the non-empty listings. -/
def display_current_scene (st : EngineSt) : List Output :=
  let description := st.current.get_description st.player.flags
  let ves := st.current.get_visible_exits st.player.flags
  let vos := st.current.get_visible_objects st.player.flags
  let chars := st.charactersInScene
  [Output.sceneTitle st.current.name, Output.text description]
    ++ (if ves.isEmpty then [] else [Output.exitsList ves])
    ++ (if vos.isEmpty then [] else [Output.objectsList vos])
    ++ (if chars.isEmpty then [] else [Output.charactersList (chars.map Prod.fst)])

/-- `QuillEngine.handle_movement`: resolve the exit among the visible ones
case-insensitively; a locked exit renders its lock message without moving;
otherwise the current scene becomes the exit's target when that scene is
loaded. -/
def handle_movement (st : EngineSt) (exit_name : String) : EngineSt × List Output :=
  let exits := st.current.get_visible_exits st.player.flags
  match exits.find? (fun e => pyLower e.1 == pyLower exit_name) with
  | none =>
      (st, [Output.err ("There\x27s no \x27" ++ exit_name ++ "\x27 that you can see.")])
  | some fe =>
      if st.current.is_exit_locked fe.1 st.player.flags then
        (st, [Output.text (st.current.get_locked_exit_message fe.1)])
      else
        match fe.2.target with
        | some t =>
            match lookupA st.scenes t with
            | some sc =>
                let st2 := { st with current := sc }
                (st2, display_current_scene st2)
            | none => (st, [Output.err ("Error: Scene \x27" ++ t ++ "\x27 not found.")])
        | none => (st, [Output.err "Error: Scene \x27None\x27 not found."])

/-- `QuillEngine.examine_object`: a scene object renders its description and
triggers hidden-object revelation; otherwise, for a held item the handler
evaluates `"examination" in item`, which raises (`Item.pyContains`) whenever
the item exists in the item map; otherwise a not-found error. -/
def examine_object (st : EngineSt) (object_name : String) : TurnResult :=
  if st.current.has_object object_name then
    let description := st.current.get_object_description object_name
    let rp := st.current.reveal_hidden_objects object_name st.player
    TurnResult.ok (({ st with player := rp.2 }).putScene rp.1) [Output.text description]
  else if st.player.has_item object_name then
    match lookupA st.items object_name with
    | some it =>
        match it.pyContains "examination" with
        | Except.error _ => TurnResult.exn st []
        | Except.ok true => TurnResult.ok st [Output.text (it.examination.getD "")]
        | Except.ok false =>
            TurnResult.ok st
              [Output.err ("You don\x27t see any \x27" ++ object_name ++ "\x27 here.")]
    | none =>
        TurnResult.ok st
          [Output.err ("You don\x27t see any \x27" ++ object_name ++ "\x27 here.")]
  else
    TurnResult.ok st [Output.err ("You don\x27t see any \x27" ++ object_name ++ "\x27 here.")]

/-- `QuillEngine.take_item`: resolve in the scene, enforce the takeable flag
and the lock, then transfer: add to inventory, delete from the scene map. -/
def take_item (st : EngineSt) (item_name : String) : EngineSt × List Output :=
  match st.current.find_item item_name with
  | none =>
      (st, [Output.err ("There\x27s no \x27" ++ item_name ++ "\x27 here that you can take.")])
  | some item_id =>
      match lookupA st.items item_id with
      | none => (st, [Output.text ("You can\x27t take the " ++ item_name ++ ".")])
      | some it =>
          if !(it.takeable.getD true) then
            (st, [Output.text ("You can\x27t take the " ++ item_name ++ ".")])
          else if st.current.is_item_locked item_id st.player.flags then
            (st, [Output.text (st.current.get_locked_item_message item_id)])
          else
            let st1 := { st with player := st.player.add_item item_id }
            let st2 := st1.putScene (st1.current.remove_item item_id)
            let nm := it.name.getD item_name
            (st2, [Output.text ("You take the " ++ nm ++ ".")])

/-- `QuillEngine.use_item`: after the inventory and item-map checks both
branches evaluate `"effects" in item`, which raises (`Item.pyContains`);
the effect lookup and event fallback below it are dead code. -/
def use_item (st : EngineSt) (item_name : String) (_target_name : String) : TurnResult :=
  if !(st.player.has_item item_name) then
    TurnResult.ok st [Output.err ("You don\x27t have a \x27" ++ item_name ++ "\x27 to use.")]
  else
    match lookupA st.items item_name with
    | none =>
        TurnResult.ok st
          [Output.err ("Item \x27" ++ item_name ++ "\x27 not found in game data.")]
    | some it =>
        match it.pyContains "effects" with
        | Except.error _ => TurnResult.exn st []
        | Except.ok _ => TurnResult.exn st []

/-- `QuillEngine.display_inventory` -/
def display_inventory (st : EngineSt) : List Output :=
  if st.player.inventory.isEmpty then [Output.text "Your inventory is empty."]
  else [Output.inventoryList (st.player.inventory.map (itemDisplayName st))]

/-- The event-application half of `QuillEngine.check_events`: message (an
absent message prints as the empty string), then flags, then item grants
with acquisition notices, then the optional scene change with a re-render. -/
def apply_triggered_event (st : EngineSt) (e : Event) : EngineSt × List Output :=
  let out0 := [Output.text (e.message.getD "")]
  let p1 := e.flags_set.foldl Player.add_flag st.player
  let acc := e.items_add.foldl
    (fun (a : Player × List Output) i =>
      (a.1.add_item i, a.2 ++ [Output.text ("* You got: " ++ itemDisplayName st i)]))
    (p1, [])
  let st1 := { st with player := acc.1 }
  match e.change_scene with
  | some t =>
      match lookupA st1.scenes t with
      | some sc =>
          let st2 := { st1 with current := sc }
          (st2, out0 ++ acc.2 ++ display_current_scene st2)
      | none => (st1, out0 ++ acc.2)
  | none => (st1, out0 ++ acc.2)

/-- `QuillEngine.check_events`: try the bare verb, then verb-with-target,
then verb-target-on-indirect (each stripped); the first trigger matching a
declared event under the active condition fires it. -/
def check_events (st : EngineSt) (action target indirect : String) :
    Bool × EngineSt × List Output :=
  let triggers := [pyStrip action, pyStrip (action ++ " " ++ target),
                   pyStrip (action ++ " " ++ target ++ " on " ++ indirect)]
  match triggers.findSome? (fun t => st.current.check_event t st.player.flags) with
  | some e =>
      let r := apply_triggered_event st e
      (true, r.1, r.2)
  | none => (false, st, [])

/-- Python `int(s)`: optional sign, decimal digits, surrounding whitespace. -/
def pyIntParse (s : String) : Option Int :=
  let t := (pyStrip s).toList
  let neg := charsStartWith t ['-']
  let core := if charsStartWith t ['-'] || charsStartWith t ['+'] then t.drop 1 else t
  if !core.isEmpty && core.all Char.isDigit then
    some (if neg then -(digitsToNat core : Int) else (digitsToNat core : Int))
  else none

/-- `DialogueMenu.get_choice` with the typed line as an argument: blank and
non-numeric input yield no choice, a number below 1 yields no choice, and
every other number is returned as a zero-based index — the upper bound is
not checked here. -/
def get_choice (raw : String) : Option Nat :=
  if pyStrip raw == "" then none
  else
    match pyIntParse raw with
    | none => none
    | some n => if n < 1 then none else some (n - 1).toNat

/-- The action loop of `QuillEngine.talk_to_character`: apply each dialogue
action in list order — `set_flag` adds a flag, `give_item` adds an item and
renders an acquisition notice, other types are ignored. -/
def apply_dialogue_actions (st : EngineSt) (speaker : String) (p : Player)
    (acts : List DAction) : Player × List Output :=
  acts.foldl
    (fun (a : Player × List Output) act =>
      match act with
      | DAction.set_flag f => (a.1.add_flag f, a.2)
      | DAction.give_item i =>
          (a.1.add_item i,
           a.2 ++ [Output.text ("* " ++ speaker ++ " gives you the "
                     ++ itemDisplayName st i ++ ".")])
      | DAction.other _ => a)
    (p, [])

/-- `QuillEngine.talk_to_character` with the dialogue-menu input as an
argument: resolve the character among those present by display name or id
(case-insensitively); no choice aborts the turn unchanged; an in-range
choice renders the response and applies the option's actions in order; an
out-of-range choice raises IndexError at `dialogue["options"][choice]`,
before any state change. -/
def talk_to_character (st : EngineSt) (character_name : String) (raw_choice : String) :
    TurnResult :=
  let chars := st.charactersInScene
  match chars.find? (fun c =>
      pyLower (c.2.name.getD "") == pyLower character_name
        || pyLower c.1 == pyLower character_name) with
  | none =>
      TurnResult.ok st
        [Output.err ("There\x27s no \x27" ++ character_name ++ "\x27 here to talk to.")]
  | some ch =>
      let d := ch.2.get_dialogue st.player.flags
      let speaker := ch.2.name.getD ""
      let shown := [Output.dialogueBox speaker d.text (d.options.map (fun o => o.text))]
      match get_choice raw_choice with
      | none => TurnResult.ok st shown
      | some choice =>
          match d.options[choice]? with
          | none => TurnResult.exn st shown
          | some opt =>
              let out1 := shown ++ [Output.text (speaker ++ ": " ++ opt.response)]
              let acc := apply_dialogue_actions st speaker st.player opt.actions
              TurnResult.ok { st with player := acc.1 } (out1 ++ acc.2)

/-- `QuillEngine._handle_eat`: an event check for scene objects and held
items (its outcome is reported either way), else an error. -/
def handle_eat (st : EngineSt) (target : String) : EngineSt × List Output :=
  if st.current.has_object target then
    let r := check_events st ("eat " ++ target) "" ""
    (r.2.1, r.2.2)
  else if st.player.has_item target then
    let r := check_events st ("eat " ++ target) "" ""
    (r.2.1, r.2.2)
  else
    (st, [Output.err ("You don\x27t see any \x27" ++ target ++ "\x27 here to eat.")])

/-- `QuillEngine._handle_drink`: bare drink event, then targeted drink
event, then the water/well phrasing chain, else an error. -/
def handle_drink (st : EngineSt) (target : String) : EngineSt × List Output :=
  if target == "" then
    let r := check_events st "drink" "" ""
    if r.1 then (r.2.1, r.2.2)
    else (st, [Output.err "You don\x27t see anything to drink here."])
  else if st.current.has_object target then
    let r := check_events st ("drink " ++ target) "" ""
    if r.1 then (r.2.1, r.2.2)
    else if target == "water" || target == "well" then
      let r2 := check_events st "drink water" "" ""
      if r2.1 then (r2.2.1, r2.2.2)
      else
        let r3 := check_events st "drink from well" "" ""
        if r3.1 then (r3.2.1, r3.2.2)
        else
          let r4 := check_events st "use well" "" ""
          if r4.1 then (r4.2.1, r4.2.2)
          else (st, [Output.err "You don\x27t see anything to drink here."])
    else (st, [Output.err "You don\x27t see anything to drink here."])
  else (st, [Output.err "You don\x27t see anything to drink here."])

/-- `QuillEngine._handle_push_pull` -/
def handle_push_pull (st : EngineSt) (target action : String) : EngineSt × List Output :=
  if target == "" then (st, [Output.err ("What do you want to " ++ action ++ "?")])
  else
    let r := check_events st (action ++ " " ++ target) "" ""
    if r.1 then (r.2.1, r.2.2)
    else if !(st.current.has_object target) then
      (st, [Output.err ("You don\x27t see any \x27" ++ target ++ "\x27 here to "
              ++ action ++ ".")])
    else (st, [Output.err ("You can\x27t " ++ action ++ " the " ++ target ++ ".")])

/-- `QuillEngine._handle_search`: a bare search re-renders the scene after
the event check; a targeted search falls back to hidden-object revelation
and the object description. -/
def handle_search (st : EngineSt) (target : String) : EngineSt × List Output :=
  if target == "" then
    let r := check_events st "search" "" ""
    if r.1 then (r.2.1, r.2.2)
    else (st, display_current_scene st)
  else if st.current.has_object target then
    let r := check_events st ("search " ++ target) "" ""
    if r.1 then (r.2.1, r.2.2)
    else
      let rp := st.current.reveal_hidden_objects target st.player
      let st1 := ({ st with player := rp.2 }).putScene rp.1
      let desc := st1.current.get_object_description target
      (st1, [Output.text ("You search the " ++ target ++ ". " ++ desc)])
  else
    (st, [Output.err ("You don\x27t see any \x27" ++ target ++ "\x27 here to search.")])

/-- `QuillEngine._handle_open_close` -/
def handle_open_close (st : EngineSt) (target action : String) : EngineSt × List Output :=
  if target == "" then (st, [Output.err ("What do you want to " ++ action ++ "?")])
  else
    let r := check_events st (action ++ " " ++ target) "" ""
    if r.1 then (r.2.1, r.2.2)
    else if !(st.current.has_object target) then
      (st, [Output.err ("You don\x27t see any \x27" ++ target ++ "\x27 here to "
              ++ action ++ ".")])
    else (st, [Output.err ("You can\x27t " ++ action ++ " the " ++ target ++ ".")])

/-- The `trigger_event` block of `QuillEngine.process_command`: a direct
event lookup by id.  `none` means the block fell through (missing, falsy or
unknown id) and dispatch continues with the ordinary action chain.  Item
grants here are guarded by the item map and names come from
`Item.get_name`; the message prints only when declared. -/
def handle_trigger_event (st : EngineSt) (command : Cmd) : Option (EngineSt × List Output) :=
  match cmdGet command "event_id" with
  | some (JVal.str event_id) =>
      if event_id == "" then none
      else
        match lookupA st.current.events event_id with
        | none => none
        | some e =>
            if (match e.condition with
                | some c => !(check_event_condition c st.player.flags)
                | none => false) then
              some (st, [Output.err "Nothing happens."])
            else
              let out0 := match e.message with
                | some m => [Output.text m]
                | none => []
              let p1 := e.flags_set.foldl Player.add_flag st.player
              let acc := e.items_add.foldl
                (fun (a : Player × List Output) i =>
                  match lookupA st.items i with
                  | some it =>
                      (a.1.add_item i, a.2 ++ [Output.text ("* You got: " ++ it.get_name)])
                  | none => a)
                (p1, [])
              let st1 := { st with player := acc.1 }
              match e.change_scene with
              | some t =>
                  (match lookupA st1.scenes t with
                   | some sc =>
                       let st2 := { st1 with current := sc }
                       some (st2, out0 ++ acc.2 ++ display_current_scene st2)
                   | none => some (st1, out0 ++ acc.2))
              | none => some (st1, out0 ++ acc.2)
  | _ => none

/-- Render a non-string action value inside the unknown-action message the
way a Python f-string would. -/
def jvalRender : JVal → String
  | JVal.str s => s
  | JVal.num n => toString n
  | JVal.boolean b => if b then "True" else "False"
  | JVal.null => "None"

/-- `command.get("target", "")` (and the other string payload keys): the
parser tiers only put strings in these slots; a non-string payload collapses
to the default. -/
def cmdTargetStr (c : Cmd) (k : String) : String :=
  match cmdGet c k with
  | some (JVal.str s) => s
  | _ => ""

/-- `QuillEngine.process_command` with the dialogue-menu input (used only by
the talk branch) as an argument.  The branch list is exactly the if/elif
chain of the source: an action matching none of the branches — `drop`
included — lands in the unknown-action message. -/
def process_command (st : EngineSt) (command : Cmd) (raw_choice : String) : TurnResult :=
  let action := cmdGet command "action"
  if jvalFalsy action then
    TurnResult.ok st [Output.err "I don\x27t understand what you want to do."]
  else
    match action with
    | some (JVal.str a) =>
        if a == "trigger_event" then
          match handle_trigger_event st command with
          | some r => TurnResult.ok r.1 r.2
          | none => TurnResult.ok st [Output.err ("I don\x27t know how to \x27" ++ a ++ "\x27.")]
        else if a == "look" then TurnResult.ok st (display_current_scene st)
        else if a == "go" then
          let r := handle_movement st (cmdTargetStr command "target")
          TurnResult.ok r.1 r.2
        else if a == "examine" then examine_object st (cmdTargetStr command "target")
        else if a == "take" then
          let r := take_item st (cmdTargetStr command "target")
          TurnResult.ok r.1 r.2
        else if a == "use" then
          use_item st (cmdTargetStr command "target") (cmdTargetStr command "indirect_target")
        else if a == "inventory" || a == "inv" then
          TurnResult.ok st (display_inventory st)
        else if a == "talk" then
          talk_to_character st (cmdTargetStr command "target") raw_choice
        else if a == "eat" then
          let r := handle_eat st (cmdTargetStr command "target")
          TurnResult.ok r.1 r.2
        else if a == "drink" then
          let r := handle_drink st (cmdTargetStr command "target")
          TurnResult.ok r.1 r.2
        else if a == "push" || a == "pull" then
          let r := handle_push_pull st (cmdTargetStr command "target") a
          TurnResult.ok r.1 r.2
        else if a == "search" then
          let r := handle_search st (cmdTargetStr command "target")
          TurnResult.ok r.1 r.2
        else if a == "open" || a == "close" then
          let r := handle_open_close st (cmdTargetStr command "target") a
          TurnResult.ok r.1 r.2
        else TurnResult.ok st [Output.err ("I don\x27t know how to \x27" ++ a ++ "\x27.")]
    | some v =>
        TurnResult.ok st [Output.err ("I don\x27t know how to \x27" ++ jvalRender v ++ "\x27.")]
    | none => TurnResult.ok st [Output.err "I don\x27t understand what you want to do."]

/-!  ## Helper lemmas -/

theorem mem_insertNew (l : List String) (x z : String) :
    z ∈ insertNew l x ↔ z ∈ l ∨ z = x := by
  unfold insertNew
  split
  · rename_i h
    rw [List.elem_iff] at h
    constructor
    · intro hz
      exact Or.inl hz
    · intro hz
      cases hz with
      | inl hz => exact hz
      | inr hz => exact hz ▸ h
  · simp

theorem insertNew_of_mem (l : List String) (x : String) (h : x ∈ l) :
    insertNew l x = l := by
  unfold insertNew
  rw [if_pos (List.elem_iff.mpr h)]

theorem mem_foldl_insertNew (xs : List String) (l : List String) (z : String) :
    z ∈ xs.foldl insertNew l ↔ z ∈ l ∨ z ∈ xs := by
  induction xs generalizing l with
  | nil => simp
  | cons a as ih =>
    simp only [List.foldl_cons, ih, mem_insertNew, List.mem_cons]
    constructor
    · rintro ((h | h) | h)
      · exact Or.inl h
      · exact Or.inr (Or.inl h)
      · exact Or.inr (Or.inr h)
    · rintro (h | h | h)
      · exact Or.inl (Or.inl h)
      · exact Or.inl (Or.inr h)
      · exact Or.inr h

theorem foldl_insertNew_fixed (xs : List String) (l : List String)
    (h : ∀ x ∈ xs, x ∈ l) : xs.foldl insertNew l = l := by
  induction xs with
  | nil => rfl
  | cons a as ih =>
    rw [List.foldl_cons, insertNew_of_mem l a (h a (List.mem_cons_self a as))]
    exact ih (fun x hx => h x (List.mem_cons_of_mem a hx))

theorem nodup_insertNew (l : List String) (x : String) (h : l.Nodup) :
    (insertNew l x).Nodup := by
  unfold insertNew
  split
  · exact h
  · rename_i hc
    rw [List.nodup_append]
    refine ⟨h, List.nodup_singleton x, ?_⟩
    intro a ha hax
    rw [List.mem_singleton] at hax
    exact hc (List.elem_iff.mpr (hax ▸ ha))

theorem nodup_foldl_insertNew (xs : List String) (l : List String) (h : l.Nodup) :
    (xs.foldl insertNew l).Nodup := by
  induction xs generalizing l with
  | nil => exact h
  | cons a as ih => exact ih _ (nodup_insertNew l a h)

theorem foldl_add_flag_eq (xs : List String) (p : Player) :
    xs.foldl Player.add_flag p = { p with flags := xs.foldl insertNew p.flags } := by
  induction xs generalizing p with
  | nil => rfl
  | cons a as ih =>
    rw [List.foldl_cons, List.foldl_cons, ih]
    rfl

theorem foldl_insertNew_absorb (xs : List String) (l : List String) :
    xs.foldl insertNew (xs.foldl insertNew l) = xs.foldl insertNew l :=
  foldl_insertNew_fixed xs (xs.foldl insertNew l)
    (fun x hx => (mem_foldl_insertNew xs l x).mpr (Or.inr hx))

theorem foldl_add_flag_fixed (xs : List String) (p : Player) :
    xs.foldl Player.add_flag (xs.foldl Player.add_flag p) = xs.foldl Player.add_flag p := by
  rw [foldl_add_flag_eq xs p, foldl_add_flag_eq xs]
  simp only
  rw [foldl_insertNew_absorb]

theorem find?_first_of_split {α : Type} (p : α → Bool) (pre post : List α) (x : α)
    (hpre : ∀ y ∈ pre, p y = false) (hx : p x = true) :
    (pre ++ x :: post).find? p = some x := by
  induction pre with
  | nil =>
    simpa using List.find?_cons_of_pos post hx
  | cons a as ih =>
    rw [List.cons_append, List.find?_cons_of_neg]
    · exact ih (fun y hy => hpre y (List.mem_cons_of_mem a hy))
    · simp [hpre a (List.mem_cons_self a as)]

/-- The guarded condition check collapses to the unguarded subset/disjoint
check (the emptiness guards are redundant on empty lists). -/
theorem check_condition_some (c : Condition) (flags : List String) :
    check_condition (some c) flags
      = (c.has_flags.all (fun f => flags.contains f)
          && !(c.lacks_flags.any (fun f => flags.contains f))) := by
  have hys : c.has_flags.isEmpty = true → c.has_flags.all (fun f => flags.contains f) = true := by
    intro h
    rw [List.isEmpty_iff.mp h]
    rfl
  have hls : c.lacks_flags.isEmpty = true → c.lacks_flags.any (fun f => flags.contains f) = false := by
    intro h
    rw [List.isEmpty_iff.mp h]
    rfl
  simp only [check_condition]
  cases he1 : c.has_flags.isEmpty <;> cases he2 : c.lacks_flags.isEmpty <;>
    cases ha : c.has_flags.all (fun f => flags.contains f) <;>
    cases hl : c.lacks_flags.any (fun f => flags.contains f) <;>
    simp_all

/-!  ## Claims -/

/-- C4: for every condition and flag set, condition evaluation returns true
iff every `has_flags` entry is present and no `lacks_flags` entry is
present; an absent condition and the empty condition always evaluate
true. -/
theorem C4_condition_evaluation :
    (∀ (cond : Option Condition) (flags : List String),
      check_condition cond flags = true ↔
        ((∀ f ∈ condHas cond, f ∈ flags) ∧ (∀ f ∈ condLacks cond, f ∉ flags)))
    ∧ (∀ flags : List String,
        check_condition none flags = true ∧ check_condition (some {}) flags = true) := by
  constructor
  · intro cond flags
    cases cond with
    | none => simp [check_condition, condHas, condLacks]
    | some c =>
      rw [check_condition_some]
      simp only [condHas, condLacks, Bool.and_eq_true, List.all_eq_true,
        Bool.not_eq_true', List.any_eq_false]
      constructor
      · intro h
        exact ⟨fun f hf => List.elem_iff.mp (h.1 f hf),
               fun f hf hmem => h.2 f hf (List.elem_iff.mpr hmem)⟩
      · intro h
        exact ⟨fun f hf => List.elem_iff.mpr (h.1 f hf),
               fun f hf hc => h.2 f hf (List.elem_iff.mp hc)⟩
  · intro flags
    exact ⟨rfl, rfl⟩

/-- C10: for every scene and any two flag sets, the visible exits and the
visible objects coincide — visibility reads only the entries' hidden
markers and the scene's `revealed_objects` set, never the player flags. -/
theorem C10_visibility_flag_independence :
    ∀ (s : Scene) (f1 f2 : List String),
      s.get_visible_exits f1 = s.get_visible_exits f2
        ∧ s.get_visible_objects f1 = s.get_visible_objects f2 := by
  intro s f1 f2
  exact ⟨rfl, rfl⟩

/-- C7: examining the same object twice is idempotent — a second
`reveal_hidden_objects` on the state produced by the first changes nothing,
re-adding a present flag is a no-op, and revelation keeps `revealed_objects`
duplicate-free. -/
theorem C7_examine_idempotent :
    ∀ (s : Scene) (p : Player) (name f : String),
      ((s.reveal_hidden_objects name p).1.reveal_hidden_objects name
          (s.reveal_hidden_objects name p).2 = s.reveal_hidden_objects name p)
      ∧ ((p.add_flag f).add_flag f = p.add_flag f)
      ∧ (s.revealed_objects.Nodup →
          (s.reveal_hidden_objects name p).1.revealed_objects.Nodup) := by
  intro s p name f
  refine ⟨?_, ?_, ?_⟩
  · cases h : lookupA s.objects name with
    | none => simp [Scene.reveal_hidden_objects, h]
    | some entry =>
      cases entry with
      | legacy d => simp [Scene.reveal_hidden_objects, h]
      | full d =>
        simp only [Scene.reveal_hidden_objects, h]
        rw [foldl_insertNew_absorb, foldl_add_flag_fixed]
  · have hfix : insertNew (insertNew p.flags f) f = insertNew p.flags f :=
      insertNew_of_mem _ _ ((mem_insertNew p.flags f f).mpr (Or.inr rfl))
    simp [Player.add_flag, hfix]
  · intro hnd
    cases h : lookupA s.objects name with
    | none => simpa [Scene.reveal_hidden_objects, h] using hnd
    | some entry =>
      cases entry with
      | legacy d => simpa [Scene.reveal_hidden_objects, h] using hnd
      | full d =>
        simp only [Scene.reveal_hidden_objects, h]
        exact nodup_foldl_insertNew _ _ hnd

/-- C7 witness: the idempotence and duplicate-freedom at a concrete scene
with a revealing, flag-setting object. -/
def C7_scene : Scene :=
  { id := "study"
    objects := [("desk", ObjEntry.full
      { description := "A desk.", reveals := ["drawer"], flags_set := ["saw_desk"] })] }

theorem C7_examine_idempotent_witness :
    ((C7_scene.reveal_hidden_objects "desk" {}).1.reveal_hidden_objects "desk"
        (C7_scene.reveal_hidden_objects "desk" {}).2
      = C7_scene.reveal_hidden_objects "desk" {})
    ∧ (C7_scene.reveal_hidden_objects "desk" {}).1.revealed_objects.Nodup := by
  refine ⟨(C7_examine_idempotent C7_scene {} "desk" "saw_desk").1, ?_⟩
  exact (C7_examine_idempotent C7_scene {} "desk" "saw_desk").2.2 (by decide)

/-- C6: state resolution is first-match-wins with a default fallback — for a
fixed scene/character and flag set, `get_description` returns the override of
the first declared state whose condition holds (falling back to the scene
default when that state declares no description, or when no state matches),
and `get_dialogue` likewise returns the first matching dialogue state or the
default dialogue.  Both are pure functions of their arguments, so repeated
calls agree by construction. -/
theorem C6_first_match_state_resolution :
    (∀ (s : Scene) (flags : List String),
      (∀ st ∈ s.states, check_condition st.2.condition flags = false) →
      s.get_description flags = s.description)
    ∧ (∀ (s : Scene) (flags : List String) (pre post : List (String × StateData))
        (entry : String × StateData),
        s.states = pre ++ entry :: post →
        (∀ st ∈ pre, check_condition st.2.condition flags = false) →
        check_condition entry.2.condition flags = true →
        s.get_description flags = entry.2.description.getD s.description)
    ∧ (∀ (c : Character) (flags : List String),
        (∀ st ∈ c.dialogue_states, check_condition st.2.condition flags = false) →
        c.get_dialogue flags = c.dialogue)
    ∧ (∀ (c : Character) (flags : List String) (pre post : List (String × DialogueState))
        (entry : String × DialogueState),
        c.dialogue_states = pre ++ entry :: post →
        (∀ st ∈ pre, check_condition st.2.condition flags = false) →
        check_condition entry.2.condition flags = true →
        c.get_dialogue flags = { text := entry.2.text, options := entry.2.options }) := by
  refine ⟨?_, ?_, ?_, ?_⟩
  · intro s flags hall
    unfold Scene.get_description
    rw [List.find?_eq_none.mpr (fun st hst => by simp [hall st hst])]
  · intro s flags pre post entry hsplit hpre hentry
    unfold Scene.get_description
    rw [hsplit, find?_first_of_split _ pre post entry (fun y hy => hpre y hy) hentry]
  · intro c flags hall
    unfold Character.get_dialogue
    rw [List.find?_eq_none.mpr (fun st hst => by simp [hall st hst])]
  · intro c flags pre post entry hsplit hpre hentry
    unfold Character.get_dialogue
    rw [hsplit, find?_first_of_split _ pre post entry (fun y hy => hpre y hy) hentry]

/-- C6 witness scene: a default description and two states, the first gated
on a missing flag, the second matching. -/
def C6_scene : Scene :=
  { id := "cellar"
    description := "A dark cellar."
    states :=
      [("lit", { condition := some { has_flags := ["lantern_lit"] }
                 description := some "The cellar is bathed in light." }),
       ("open", { condition := some { has_flags := ["door_open"] }
                  description := some "A draft blows through the open door." })] }

/-- C6 witness character: default dialogue plus one gated dialogue state. -/
def C6_char : Character :=
  { id := "guard"
    dialogue := { text := "Halt!" }
    dialogue_states :=
      [("friendly", { condition := some { has_flags := ["met_guard"] }
                      text := "Welcome back." })] }

theorem C6_first_match_state_resolution_witness :
    C6_scene.get_description [] = "A dark cellar."
    ∧ C6_scene.get_description ["door_open"] = "A draft blows through the open door."
    ∧ C6_char.get_dialogue ["met_guard"] = { text := "Welcome back.", options := [] } := by
  refine ⟨?_, ?_, ?_⟩
  · exact C6_first_match_state_resolution.1 C6_scene [] (by decide)
  · exact C6_first_match_state_resolution.2.1 C6_scene ["door_open"]
      [("lit", { condition := some { has_flags := ["lantern_lit"] }
                 description := some "The cellar is bathed in light." })] []
      ("open", { condition := some { has_flags := ["door_open"] }
                 description := some "A draft blows through the open door." })
      (by decide) (by decide) (by decide)
  · exact C6_first_match_state_resolution.2.2.2 C6_char ["met_guard"] [] []
      ("friendly", { condition := some { has_flags := ["met_guard"] }
                     text := "Welcome back." })
      (by decide) (by decide) (by decide)

/-- C2: whenever the primary backend raises, or its reply yields no JSON
object (no braces / unparseable slice / empty API reply), or the extracted
JSON object lacks an `action` key, `parse` returns exactly what the
rule-based tier returns for the same input and context — for both the local
neural backend and the remote API backend, under any behaviour of the JSON
library. -/
theorem C2_parser_fallback :
    ∀ (jsonLoads : String → Option Cmd) (input : String) (scene : Scene) (player : Player),
      (Quill.parse jsonLoads (Backend.localReady (Except.error ())) input scene player
        = Quill.rule_based_parse input scene player)
      ∧ (Quill.parse jsonLoads (Backend.apiReady (Except.error ())) input scene player
        = Quill.rule_based_parse input scene player)
      ∧ (Quill.parse jsonLoads (Backend.apiReady (Except.ok none)) input scene player
        = Quill.rule_based_parse input scene player)
      ∧ (∀ raw : String, extract_json jsonLoads (pyStrip raw) = none →
          Quill.parse jsonLoads (Backend.localReady (Except.ok raw)) input scene player
            = Quill.rule_based_parse input scene player)
      ∧ (∀ (raw : String) (cmdv : Cmd), extract_json jsonLoads (pyStrip raw) = some cmdv →
          cmdv.any (fun p => p.1 == "action") = false →
          Quill.parse jsonLoads (Backend.localReady (Except.ok raw)) input scene player
            = Quill.rule_based_parse input scene player)
      ∧ (∀ raw : String, api_extract_json jsonLoads (pyStrip raw) = none →
          Quill.parse jsonLoads (Backend.apiReady (Except.ok (some raw))) input scene player
            = Quill.rule_based_parse input scene player)
      ∧ (∀ (raw : String) (cmdv : Cmd), api_extract_json jsonLoads (pyStrip raw) = some cmdv →
          cmdv.any (fun p => p.1 == "action") = false →
          Quill.parse jsonLoads (Backend.apiReady (Except.ok (some raw))) input scene player
            = Quill.rule_based_parse input scene player) := by
  intro jsonLoads input scene player
  refine ⟨rfl, rfl, rfl, ?_, ?_, ?_, ?_⟩
  · intro raw hx
    simp only [Quill.parse, Quill.neural_reply_to_command, hx]
  · intro raw cmdv hx hna
    simp only [Quill.parse, Quill.neural_reply_to_command, hx, hna]
    rfl
  · intro raw hx
    simp only [Quill.parse, Quill.api_reply_to_command, hx]
  · intro raw cmdv hx hna
    simp only [Quill.parse, Quill.api_reply_to_command, hx, hna]
    rfl

/-- C2 witness scene. -/
def C2_scene : Scene :=
  { id := "hall", exits := [("north", ExitEntry.legacy "garden")] }

/-- C2 witness: with a JSON library that always fails, a brace-free local
reply falls back to the rule tier, a reply whose object lacks `action` falls
back, and a raising API backend falls back — all equal to the rule-based
result, which resolves `go north` here. -/
theorem C2_parser_fallback_witness :
    (Quill.parse (fun _ => none) (Backend.localReady (Except.ok "no json here"))
        "north" C2_scene {} = Quill.rule_based_parse "north" C2_scene {})
    ∧ (Quill.parse (fun _ => some [("target", JVal.str "lamp")])
        (Backend.localReady (Except.ok "\x7b\x22target\x22: \x22lamp\x22\x7d"))
        "north" C2_scene {} = Quill.rule_based_parse "north" C2_scene {})
    ∧ (Quill.parse (fun _ => none) (Backend.apiReady (Except.error ()))
        "north" C2_scene {} = Quill.rule_based_parse "north" C2_scene {})
    ∧ Quill.rule_based_parse "north" C2_scene {}
        = [("action", JVal.str "go"), ("target", JVal.str "north")] := by
  refine ⟨?_, ?_, ?_, by decide⟩
  · exact (C2_parser_fallback (fun _ => none) "north" C2_scene {}).2.2.2.1
      "no json here" (by decide)
  · exact (C2_parser_fallback (fun _ => some [("target", JVal.str "lamp")])
      "north" C2_scene {}).2.2.2.2.1 "\x7b\x22target\x22: \x22lamp\x22\x7d"
      [("target", JVal.str "lamp")] (by decide) (by decide)
  · exact (C2_parser_fallback (fun _ => none) "north" C2_scene {}).2.1

/-- C3 scene (no visible exits; the inputs exercise only the verb logic). -/
def C3_scene : Scene :=
  { id := "room" }

/-- C3 counterexample: the claim — that the rule-based parser maps both
`examine lamp` and `look at lamp` to `{action: examine, target: lamp}` —
fails on both rule-based parsers in the repository: the quill tier parses
`look at lamp` to a bare `look` (the preposition split leaves an empty
target), and the soliloquy tier parses `examine lamp` to
`{action: look, target: lamp}` (it has no look-with-target rewrite). -/
theorem C3_counterexample :
    Quill.rule_based_parse "look at lamp" C3_scene {} = [("action", JVal.str "look")]
    ∧ Soliloquy.rule_based_parse "examine lamp" C3_scene {}
        = [("action", JVal.str "look"), ("target", JVal.str "lamp")] := by
  constructor
  · decide
  · decide

/-- C3 amended: in the quill rule tier, `examine lamp` is rewritten to
`{examine, target=lamp}` by the look-with-target rule, while `look at lamp`
yields a bare `look`; the `look at X` special case lives only in the
soliloquy rule tier, where it maps `look at (the) lamp` to
`{examine, target=lamp}` while `examine lamp` stays a `look` with target
because that tier lacks the rewrite. -/
theorem C3_amended_examine_rewrites :
    Quill.rule_based_parse "examine lamp" C3_scene {}
        = [("action", JVal.str "examine"), ("target", JVal.str "lamp")]
    ∧ Quill.rule_based_parse "look at lamp" C3_scene {} = [("action", JVal.str "look")]
    ∧ Soliloquy.rule_based_parse "look at lamp" C3_scene {}
        = [("action", JVal.str "examine"), ("target", JVal.str "lamp")]
    ∧ Soliloquy.rule_based_parse "look at the lamp" C3_scene {}
        = [("action", JVal.str "examine"), ("target", JVal.str "lamp")]
    ∧ Soliloquy.rule_based_parse "examine lamp" C3_scene {}
        = [("action", JVal.str "look"), ("target", JVal.str "lamp")] := by
  refine ⟨by decide, by decide, by decide, by decide, by decide⟩

/-- The library scene of the C1 scenario. -/
def C1_library : Scene :=
  { id := "library", name := "Library" }

/-- The C1 scenario exactly as claimed: the lock condition is
`{has_flags: [has_key]}` (declared in the scene's `locked_exits` map, the
only place `is_exit_locked` consults). -/
def C1_hall_claim : Scene :=
  { id := "hall"
    name := "Hall"
    exits := [("library_door", ExitEntry.full { target := some "library" })]
    locked_exits := [("library_door",
      { condition := some { has_flags := ["has_key"] }, message := some "It\x27s locked." })] }

/-- C1 claimed engine state (the player does not hold `has_key`). -/
def C1_st_claim : EngineSt :=
  { scenes := [("hall", C1_hall_claim), ("library", C1_library)]
    current := C1_hall_claim }

/-- C1 counterexample: with the claimed lock condition
`{has_flags: [has_key]}`, `go library_door` succeeds *before* the key is
held — the current scene changes to `library` and no locked message is
rendered — and once `has_key` is held the exit reports locked: the code
reads the lock condition as "locked while the condition holds", the inverse
of the claim. -/
theorem C1_counterexample :
    C1_st_claim.player.flags = []
    ∧ (handle_movement C1_st_claim "library_door").1.current.id = "library"
    ∧ (handle_movement C1_st_claim "library_door").2
        = display_current_scene { C1_st_claim with current := C1_library }
    ∧ handle_movement
        { C1_st_claim with player := { flags := ["has_key"] } } "library_door"
        = ({ C1_st_claim with player := { flags := ["has_key"] } },
           [Output.text "It\x27s locked."]) := by
  decide

/-- The C1 scenario with the lock condition the code semantics requires:
`{lacks_flags: [has_key]}` (locked while the key is missing), plus an event
that grants `has_key`. -/
def C1_hall : Scene :=
  { id := "hall"
    name := "Hall"
    exits := [("library_door", ExitEntry.full { target := some "library" })]
    locked_exits := [("library_door",
      { condition := some { lacks_flags := ["has_key"] }, message := some "It\x27s locked." })]
    events := [("find_key", { trigger := "search bench", flags_set := ["has_key"] })] }

/-- C1 amended engine state. -/
def C1_st : EngineSt :=
  { scenes := [("hall", C1_hall), ("library", C1_library)]
    current := C1_hall }

/-- C1 amended: with the key-gated lock written `{lacks_flags: [has_key]}`
in the scene's `locked_exits` map, `go library_door` before the key renders
"It\x27s locked." and leaves the current scene unchanged; after an event
adds `has_key` to the player's flags, the same command changes the current
scene to `library`. -/
theorem C1_locked_exit_scenario :
    handle_movement C1_st "library_door" = (C1_st, [Output.text "It\x27s locked."])
    ∧ (check_events C1_st "search bench" "" "").1 = true
    ∧ (check_events C1_st "search bench" "" "").2.1.player.flags = ["has_key"]
    ∧ (handle_movement (check_events C1_st "search bench" "" "").2.1
        "library_door").1.current.id = "library" := by
  decide

/-- C9 scene: no objects, so an examined name falls to the inventory path. -/
def C9_scene : Scene :=
  { id := "den" }

/-- C9 engine state: `lamp` is held and exists in the item map with
examination text; `coin` is held but missing from the item map. -/
def C9_st : EngineSt :=
  { scenes := [("den", C9_scene)]
    items := [("lamp", { id := "lamp", name := some "Brass Lamp"
                         examination := some "Finely wrought brass." })]
    player := { inventory := ["lamp", "coin"] }
    current := C9_scene }

/-- C9: examining a held item that is not a scene object does not render its
examination text — the membership test `"examination" in item` raises
`KeyError` (the `Item` class lacks `__contains__`), so the exception escapes
the handler with the state unchanged; only when the item is absent from the
item map does the handler reach the claimed "not found" error. -/
theorem C9_examine_inventory_raises :
    examine_object C9_st "lamp" = TurnResult.exn C9_st []
    ∧ C9_st.player.has_item "lamp" = true
    ∧ C9_st.current.has_object "lamp" = false
    ∧ (lookupA C9_st.items "lamp").isSome = true
    ∧ examine_object C9_st "coin"
        = TurnResult.ok C9_st [Output.err "You don\x27t see any \x27coin\x27 here."] := by
  decide

theorem contains_map_fst_filter_ne {α : Type} (l : List (String × α)) (k : String) :
    (((l.filter (fun it => !(it.1 == k))).map Prod.fst).contains k) = false := by
  rw [Bool.eq_false_iff]
  intro hc
  rw [List.elem_iff] at hc
  obtain ⟨p, hp, hpk⟩ := List.mem_map.mp hc
  have hfil := (List.mem_filter.mp hp).2
  rw [hpk] at hfil
  simp at hfil

theorem count_add_item (p : Player) (x : String) (h : p.inventory.Nodup) :
    (p.add_item x).inventory.count x = 1 := by
  unfold Player.add_item
  split
  · rename_i hc
    exact List.count_eq_one_of_mem h (List.elem_iff.mp hc)
  · rename_i hc
    have hx : x ∉ p.inventory := fun hm => hc (List.elem_iff.mpr hm)
    simp [List.count_append, List.count_eq_zero_of_not_mem hx]

/-- C5: a successful `take` (resolvable, takeable, unlocked) removes the
item id from the scene's item map and leaves it exactly once in a
duplicate-free inventory; but the dispatcher has no `drop` branch — every
command whose action is `drop` lands in the unknown-action handler, leaving
the whole state (inventory and scene item map included) unchanged, so the
claimed reverse transfer never happens. -/
theorem C5_take_transfer_and_drop_dispatch :
    (∀ (st : EngineSt) (name item_id : String) (it : Item),
      st.current.find_item name = some item_id →
      lookupA st.items item_id = some it →
      it.takeable.getD true = true →
      st.current.is_item_locked item_id st.player.flags = false →
      st.player.inventory.Nodup →
      (((take_item st name).1.current.items.map Prod.fst).contains item_id = false
        ∧ (take_item st name).1.player.inventory.count item_id = 1))
    ∧ (∀ (st : EngineSt) (command : Cmd) (raw : String),
        cmdGet command "action" = some (JVal.str "drop") →
        process_command st command raw
          = TurnResult.ok st [Output.err "I don\x27t know how to \x27drop\x27."]) := by
  constructor
  · intro st name item_id it hfind hitem htake hlock hnodup
    have hred : (take_item st name).1
        = ({ st with player := st.player.add_item item_id }).putScene
            (({ st with player := st.player.add_item item_id }).current.remove_item item_id) := by
      simp [take_item, hfind, hitem, htake, hlock]
    rw [hred]
    constructor
    · simp only [EngineSt.putScene, Scene.remove_item]
      exact contains_map_fst_filter_ne st.current.items item_id
    · simp only [EngineSt.putScene]
      exact count_add_item st.player item_id hnodup
  · intro st command raw hact
    simp only [process_command, hact]
    rfl

/-- C5 witness state for the take half: `lamp` sits in the scene and the
item map, unlocked and takeable. -/
def C5_take_scene : Scene :=
  { id := "field", items := [("lamp", SceneItemVal.record (some "Brass Lamp"))] }

/-- C5 witness engine state. -/
def C5_take_st : EngineSt :=
  { scenes := [("field", C5_take_scene)]
    items := [("lamp", { id := "lamp", name := some "Brass Lamp" })]
    current := C5_take_scene }

theorem C5_take_transfer_and_drop_dispatch_witness :
    (((take_item C5_take_st "lamp").1.current.items.map Prod.fst).contains "lamp" = false
      ∧ (take_item C5_take_st "lamp").1.player.inventory.count "lamp" = 1)
    ∧ process_command C5_take_st [("action", JVal.str "drop"), ("target", JVal.str "lamp")] ""
        = TurnResult.ok C5_take_st [Output.err "I don\x27t know how to \x27drop\x27."] := by
  constructor
  · exact C5_take_transfer_and_drop_dispatch.1 C5_take_st "lamp" "lamp"
      { id := "lamp", name := some "Brass Lamp" }
      (by decide) (by decide) (by decide) (by decide) (by decide)
  · exact C5_take_transfer_and_drop_dispatch.2 C5_take_st
      [("action", JVal.str "drop"), ("target", JVal.str "lamp")] "" (by decide)

/-- C5 counterexample scene/state: the player already holds `lamp` and the
scene's item map is empty. -/
def C5_drop_st : EngineSt :=
  { scenes := [("field", { id := "field" })]
    items := [("lamp", { id := "lamp", name := some "Brass Lamp" })]
    player := { inventory := ["lamp"] }
    current := { id := "field" } }

/-- C5 counterexample: a `drop` command naming the held `lamp` performs no
transfer — the state comes back identical (the id stays in the inventory and
is not returned to the scene's item map) and the engine answers with the
unknown-action error. -/
theorem C5_drop_counterexample :
    process_command C5_drop_st [("action", JVal.str "drop"), ("target", JVal.str "lamp")] ""
        = TurnResult.ok C5_drop_st [Output.err "I don\x27t know how to \x27drop\x27."]
    ∧ C5_drop_st.player.inventory = ["lamp"]
    ∧ C5_drop_st.current.items = [] := by
  decide

/-- C8: during a talk interaction every invalid dialogue choice — blank
input, non-numeric input, or a number outside 1..n — aborts the talk turn
with the engine state (flags and inventory included) unchanged: no choice
returns the state untouched, and an out-of-range index raises at the option
lookup before any action runs, so the escaping exception also carries the
untouched state; only a valid 1-based choice, converted to the 0-based
index, has its option's actions applied. -/
theorem C8_dialogue_choice_validation :
    ∀ (st : EngineSt) (name raw cid : String) (c : Character),
      st.charactersInScene.find? (fun x =>
          pyLower (x.2.name.getD "") == pyLower name
            || pyLower x.1 == pyLower name) = some (cid, c) →
      ((get_choice raw = none →
          talk_to_character st name raw
            = TurnResult.ok st
                [Output.dialogueBox (c.name.getD "") (c.get_dialogue st.player.flags).text
                  ((c.get_dialogue st.player.flags).options.map (fun o => o.text))])
        ∧ (∀ i : Nat, get_choice raw = some i →
            (c.get_dialogue st.player.flags).options.length ≤ i →
            talk_to_character st name raw
              = TurnResult.exn st
                  [Output.dialogueBox (c.name.getD "") (c.get_dialogue st.player.flags).text
                    ((c.get_dialogue st.player.flags).options.map (fun o => o.text))])
        ∧ (∀ (i : Nat) (opt : DOption), get_choice raw = some i →
            (c.get_dialogue st.player.flags).options[i]? = some opt →
            talk_to_character st name raw
              = TurnResult.ok
                  { st with player :=
                      (apply_dialogue_actions st (c.name.getD "") st.player opt.actions).1 }
                  ([Output.dialogueBox (c.name.getD "") (c.get_dialogue st.player.flags).text
                      ((c.get_dialogue st.player.flags).options.map (fun o => o.text)),
                    Output.text ((c.name.getD "") ++ ": " ++ opt.response)]
                    ++ (apply_dialogue_actions st (c.name.getD "") st.player opt.actions).2))
        ∧ (pyStrip raw = "" → get_choice raw = none)
        ∧ (pyIntParse raw = none → get_choice raw = none)
        ∧ (∀ n : Int, pyIntParse raw = some n → n < 1 → get_choice raw = none)
        ∧ (∀ n : Int, pyIntParse raw = some n → 1 ≤ n →
            get_choice raw = some (n - 1).toNat)) := by
  intro st name raw cid c hfind
  refine ⟨?_, ?_, ?_, ?_, ?_, ?_, ?_⟩
  · intro hch
    simp only [talk_to_character, hfind, hch]
  · intro i hch hlen
    have hnone : (c.get_dialogue st.player.flags).options[i]? = none :=
      List.getElem?_eq_none hlen
    simp only [talk_to_character, hfind, hch, hnone]
  · intro i opt hch hopt
    simp only [talk_to_character, hfind, hch, hopt]
    rfl
  · intro hblank
    simp [get_choice, hblank]
  · intro hparse
    by_cases hblank : (pyStrip raw == "") = true
    · simp [get_choice, hblank]
    · simp [get_choice, hblank, hparse]
  · intro n hparse hlt
    by_cases hblank : (pyStrip raw == "") = true
    · simp [get_choice, hblank]
    · simp [get_choice, hblank, hparse, hlt]
  · intro n hparse hge
    have hblank : (pyStrip raw == "") = false := by
      rw [Bool.eq_false_iff]
      intro hbe
      have heq := eq_of_beq hbe
      rw [pyIntParse, heq] at hparse
      simp at hparse
    simp [get_choice, hblank, hparse]
    omega

/-- C8 witness character: two options, the first carrying actions. -/
def C8_char : Character :=
  { id := "elder"
    name := some "Elder"
    dialogue := { text := "Welcome."
                  options :=
                    [{ text := "Hi", response := "Hello."
                       actions := [DAction.set_flag "met_elder", DAction.give_item "token"] },
                     { text := "Bye", response := "Farewell." }] } }

/-- C8 witness engine state. -/
def C8_st : EngineSt :=
  { scenes := [("village", { id := "village", characters := [("elder", CharPresence.present true)] })]
    characters := [("elder", C8_char)]
    current := { id := "village", characters := [("elder", CharPresence.present true)] } }

theorem C8_dialogue_choice_validation_witness :
    (talk_to_character C8_st "elder" "" = TurnResult.ok C8_st
        [Output.dialogueBox "Elder" "Welcome." ["Hi", "Bye"]])
    ∧ (talk_to_character C8_st "elder" "abc" = TurnResult.ok C8_st
        [Output.dialogueBox "Elder" "Welcome." ["Hi", "Bye"]])
    ∧ (talk_to_character C8_st "elder" "5" = TurnResult.exn C8_st
        [Output.dialogueBox "Elder" "Welcome." ["Hi", "Bye"]])
    ∧ talk_to_character C8_st "elder" "1"
        = TurnResult.ok
            { C8_st with player := { inventory := ["token"], flags := ["met_elder"] } }
            [Output.dialogueBox "Elder" "Welcome." ["Hi", "Bye"],
             Output.text "Elder: Hello.",
             Output.text "* Elder gives you the token."] := by
  have h := C8_dialogue_choice_validation C8_st "elder" "" "elder" C8_char (by decide)
  have habc := C8_dialogue_choice_validation C8_st "elder" "abc" "elder" C8_char (by decide)
  have h5 := C8_dialogue_choice_validation C8_st "elder" "5" "elder" C8_char (by decide)
  have h1 := C8_dialogue_choice_validation C8_st "elder" "1" "elder" C8_char (by decide)
  refine ⟨?_, ?_, ?_, ?_⟩
  · exact h.1 (by decide)
  · exact habc.1 (by decide)
  · exact h5.2.1 4 (by decide) (by decide)
  · have := h1.2.2.1 0
      { text := "Hi", response := "Hello."
        actions := [DAction.set_flag "met_elder", DAction.give_item "token"] }
      (by decide) (by decide)
    exact this.trans (by decide)
